import Mathlib

/-!
Verification of the pure computational core of Joplin_tornados.py: the
hourly summarizer, the alert classifier, the SPC outlook resolvers
(acting on already-fetched polygon attribute sets), and the likelihood
scorer.  Network acquisition and printing are out of scope.  Python
floats are modelled as exact rationals; every quantity produced by the
scorer is an exact multiple of 1/10, so rounding to one decimal place
is mode-independent and the model is faithful on the observable values.
Machine strings are modelled as Lean strings restricted to the
character operations the source uses (ASCII case mapping, substring
search, digit scanning).
-/

namespace Tornado

/-- JSON-like scalar values as they appear in provider records.  The
fields read by the core only ever carry numbers, nulls or strings. -/
inductive JsonVal where
  | jnull : JsonVal
  | jnum (q : ℚ) : JsonVal
  | jstr (s : String) : JsonVal
deriving DecidableEq

/-- Truncation toward zero: the semantics of Python int() on a number. -/
def truncQ (q : ℚ) : ℤ := q.num.tdiv (q.den : ℤ)

/-- Whitespace characters matched by the regex class backslash-s on
ASCII text (Python re). -/
def isWsChar (c : Char) : Bool :=
  c = ' ' || c = '\t' || c = '\n' || c = '\r' || c = '\x0b' || c = '\x0c'

/-- Numeric value of a decimal digit character. -/
def digitVal (c : Char) : ℕ := c.toNat - 48

/-- Read a maximal run of decimal digits, accumulating its value;
returns the value together with the rest of the input. -/
def readNat : List Char → ℕ → ℕ × List Char
  | [], acc => (acc, [])
  | c :: t, acc => if c.isDigit then readNat t (acc * 10 + digitVal c) else (acc, c :: t)

/-- First embedded integer of a text, as the regex search for a digit
run finds it: the maximal digit run starting at the leftmost digit. -/
def firstNat : List Char → Option ℕ
  | [] => none
  | c :: t => if c.isDigit then some (readNat (c :: t) 0).1 else firstNat t

/-- Drop leading whitespace. -/
def skipWs (l : List Char) : List Char := l.dropWhile isWsChar

/-- Does the input start, after optional whitespace, with a percent
sign?  This is the tail test of the regex digits-backslash-s-star-pct. -/
def isPctTail (l : List Char) : Bool :=
  match skipWs l with
  | '%' :: _ => true
  | _ => false

/-- Leftmost match of the regex digits-then-optional-whitespace-then-pct
over the input, returning the integer value of the digit group.  The
flag records whether the previous character was a digit, so that only
maximal digit runs are tried; a shorter suffix of a run can never match
because it would have to be followed by a digit, not a percent sign. -/
def findPctAux : Bool → List Char → Option ℕ
  | _, [] => none
  | prev, c :: t =>
    if c.isDigit && !prev then
      let r := readNat (c :: t) 0
      if isPctTail r.2 then some r.1 else findPctAux true t
    else findPctAux c.isDigit t

/-- Search for the first number followed (possibly after whitespace) by
a percent sign, as the source regex does. -/
def findPct (l : List Char) : Option ℕ := findPctAux false l

/-- Does the input start with a percent sign (no whitespace allowed)? -/
def isPctTailImmediate (l : List Char) : Bool :=
  match l with
  | '%' :: _ => true
  | _ => false

/-- Search for the first number immediately followed by a percent sign,
with no whitespace allowed in between (the literal reading of the
specification text, used to compare against the source behaviour). -/
def findPctImmediateAux : Bool → List Char → Option ℕ
  | _, [] => none
  | prev, c :: t =>
    if c.isDigit && !prev then
      let r := readNat (c :: t) 0
      if isPctTailImmediate r.2 then some r.1 else findPctImmediateAux true t
    else findPctImmediateAux c.isDigit t

/-- Immediate variant of findPct. -/
def findPctImmediate (l : List Char) : Option ℕ := findPctImmediateAux false l

/-- Is the first list a prefix of the second? -/
def isPrefixList : List Char → List Char → Bool
  | [], _ => true
  | _ :: _, [] => false
  | a :: t1, b :: t2 => a = b && isPrefixList t1 t2

/-- Substring containment, the semantics of the Python in operator on
strings: some suffix of the haystack starts with the pattern. -/
def containsSub : List Char → List Char → Bool
  | [], pat => pat.isEmpty
  | c :: t, pat => isPrefixList pat (c :: t) || containsSub t pat

/-- Characters of a string, lowercased (ASCII), as Python lower(). -/
def lowerData (s : String) : List Char := s.data.map Char.toLower

/-- Normalisation applied to a categorical label by the source:
uppercase, then remove space characters (upper + replace). -/
def normCat (s : String) : List Char :=
  (s.data.map Char.toUpper).filter (fun c => c != ' ')

/-- Value of a nonempty all-digits character list, none otherwise. -/
def allDigitsNat (l : List Char) : Option ℕ :=
  match l with
  | [] => none
  | ds => if ds.all Char.isDigit then some (readNat ds 0).1 else none

/-- Python int() applied to a string: strip surrounding whitespace,
allow one optional sign, then require a nonempty digit run; none when
the conversion would raise. -/
def pyStrToInt (s : String) : Option ℤ :=
  let l := ((s.data.dropWhile isWsChar).reverse.dropWhile isWsChar).reverse
  match l with
  | '+' :: ds => (allDigitsNat ds).map (fun n => (n : ℤ))
  | '-' :: ds => (allDigitsNat ds).map (fun n => -(n : ℤ))
  | ds => (allDigitsNat ds).map (fun n => (n : ℤ))

/-- One hourly forecast period, holding the three fields summarize_hourly
reads.  A missing or null shortForecast is the empty text after the
source coalescing; the optional fields keep their raw JSON form. -/
structure HourlyPeriod where
  shortForecast : Option String
  popValue : Option JsonVal
  windGust : Option JsonVal

/-- Case-insensitive search of the short forecast for the pattern
thunder OR t-storm OR storm, as the compiled regex in the source. -/
def isThunder (p : HourlyPeriod) : Bool :=
  let sf := lowerData (p.shortForecast.getD "")
  containsSub sf "thunder".data || containsSub sf "t-storm".data || containsSub sf "storm".data

/-- Integer conversion of the probability-of-precipitation value: the
source coalesces a missing or falsy value to 0, then tries int() and
falls back to 0 when the conversion raises. -/
def popInt : Option JsonVal → ℤ
  | none => 0
  | some JsonVal.jnull => 0
  | some (JsonVal.jnum q) => truncQ q
  | some (JsonVal.jstr s) => if s = "" then 0 else (pyStrToInt s).getD 0

/-- Per-period precipitation probability, clamped to the range 0..100
exactly as the source does: max(0, min(100, int(pop))). -/
def popClamped (p : HourlyPeriod) : ℤ := max 0 (min 100 (popInt p.popValue))

/-- Per-period wind gust: text contributes its first embedded integer
(0 when the text has no digits), a number is truncated toward zero, and
anything else contributes 0. -/
def gustVal (p : HourlyPeriod) : ℤ :=
  match p.windGust with
  | some (JsonVal.jstr s) => (((firstNat s.data).getD 0 : ℕ) : ℤ)
  | some (JsonVal.jnum q) => truncQ q
  | _ => 0

/-- The three scalar signals produced by the hourly summarizer. -/
@[ext]
structure HourlySummary where
  thunder_hours : ℤ
  max_pop : ℤ
  max_gust_mph : ℤ
deriving DecidableEq

/-- State-passing form of the loop in summarize_hourly: each period
increments the thunder count when it matches and folds the clamped
precipitation probability and the gust value into running maxima. -/
def summarizeAux (acc : HourlySummary) : List HourlyPeriod → HourlySummary
  | [] => acc
  | p :: t =>
    summarizeAux
      { thunder_hours := acc.thunder_hours + (if isThunder p then 1 else 0),
        max_pop := max acc.max_pop (popClamped p),
        max_gust_mph := max acc.max_gust_mph (gustVal p) } t

/-- summarize_hourly of the source: run the loop from the all-zero
accumulator. -/
def summarize_hourly (periods_24h : List HourlyPeriod) : HourlySummary :=
  summarizeAux ⟨0, 0, 0⟩ periods_24h

/-- Maximum of a list of integers with baseline 0, the value a running
maximum initialised to 0 computes. -/
def listMax (l : List ℤ) : ℤ := l.foldr max 0

/-- One active alert record, holding the three text fields the
classifier reads (a missing or null field is coalesced to empty). -/
structure AlertRecord where
  event : Option String
  headline : Option String
  description : Option String

/-- The lowercased text blob built per record: event, headline and
description joined by single spaces. -/
def alertText (f : AlertRecord) : List Char :=
  lowerData (f.event.getD "" ++ " " ++ f.headline.getD "" ++ " " ++ f.description.getD "")

/-- Does the record text contain the phrase tornado warning? -/
def warnPred (f : AlertRecord) : Bool := containsSub (alertText f) "tornado warning".data

/-- Does the record text contain the phrase tornado watch? -/
def watchPred (f : AlertRecord) : Bool := containsSub (alertText f) "tornado watch".data

/-- Does the record text contain the PDS phrase or the literal pds? -/
def pdsPred (f : AlertRecord) : Bool :=
  containsSub (alertText f) "particularly dangerous situation".data
    || containsSub (alertText f) "pds".data

/-- The three alert flags. -/
@[ext]
structure AlertFlags where
  has_watch : Bool
  has_warning : Bool
  has_pds : Bool
deriving DecidableEq

/-- State-passing form of the loop in classify_tornado_alerts: each
record can only turn flags on. -/
def classifyAux (acc : AlertFlags) : List AlertRecord → AlertFlags
  | [] => acc
  | f :: t =>
    classifyAux
      { has_watch := acc.has_watch || watchPred f,
        has_warning := acc.has_warning || warnPred f,
        has_pds := acc.has_pds || pdsPred f } t

/-- classify_tornado_alerts of the source: run the loop from all-false. -/
def classify_tornado_alerts (features : List AlertRecord) : AlertFlags :=
  classifyAux ⟨false, false, false⟩ features

/-- Attribute set of one polygon, as an association list; the first
binding for a key wins, matching dictionary lookup.  The feeds carry
string values in these fields, on which the str() coercion of the
source is the identity. -/
abbrev Props := List (String × String)

/-- Dictionary lookup chained with the Python or operator: try the keys
in order, skip a missing or empty value, default to the empty string. -/
def orKeys (props : Props) : List String → String
  | [] => ""
  | k :: t =>
    match List.lookup k props with
    | some v => if v = "" then orKeys props t else v
    | none => orKeys props t

/-- The non-TSTM categorical vocabulary, in the order the source loops
over it. -/
def catVocab : List String := ["MRGL", "SLGT", "ENH", "MDT", "HIGH"]

/-- Pure part of get_spc_categorical, acting on the features list of the
polygon query result: empty means no polygon, otherwise the first
polygon label (tried across LABEL, LABEL2, Type, label) is normalised
and matched against the vocabulary, TSTM first. -/
def get_spc_categorical (feats : List Props) : Option String :=
  match feats with
  | [] => none
  | props :: _ =>
    let label := normCat (orKeys props ["LABEL", "LABEL2", "Type", "label"])
    if containsSub label "TSTM".data then some "TSTM"
    else
      match catVocab.find? (fun v => containsSub label v.data) with
      | some v => some v
      | none => none

/-- Pure part of get_spc_prob_tornado, acting on the features list of
the polygon query result: empty means no polygon, otherwise search the
first polygon label (LABEL, then label) for the percent pattern, then
scan all attribute values in stored order, else none. -/
def get_spc_prob_tornado (feats : List Props) : Option ℤ :=
  match feats with
  | [] => none
  | props :: _ =>
    let label := orKeys props ["LABEL", "label"]
    match findPct label.data with
    | some n => some (n : ℤ)
    | none =>
      match (props.map (fun kv => kv.2)).findSome? (fun v => findPct v.data) with
      | some n => some (n : ℤ)
      | none => none

/-- The categorical weight table of the source together with the
dictionary get with default 0 through which the scorer reads it. -/
def CAT_WEIGHTS : Option String → ℤ
  | none => 0
  | some l =>
    if l = "TSTM" then 5
    else if l = "MRGL" then 15
    else if l = "SLGT" then 25
    else if l = "ENH" then 40
    else if l = "MDT" then 60
    else if l = "HIGH" then 80
    else 0

/-- Probabilistic contribution: 1.2 times the percentage when present. -/
def probTerm : Option ℤ → ℚ
  | none => 0
  | some p => (1.2 : ℚ) * (p : ℚ)

/-- Gust bonus: when the maximal gust exceeds 35 mph, add the excess
capped at 30. -/
def gustBonus (g : ℤ) : ℤ := if 35 < g then min (g - 35) 30 else 0

/-- The raw score accumulated by lines 281 to 289 of the source:
categorical weight, probabilistic term, 2 per capped thunder hour, the
gust bonus, and 0.2 per point of maximal precipitation probability. -/
def rawScore (spc_cat : Option String) (spc_prob_tor : Option ℤ) (hs : HourlySummary) : ℚ :=
  (CAT_WEIGHTS spc_cat : ℚ) + probTerm spc_prob_tor
    + (2.0 : ℚ) * ((min hs.thunder_hours 10 : ℤ) : ℚ)
    + (gustBonus hs.max_gust_mph : ℚ)
    + (0.2 : ℚ) * (hs.max_pop : ℚ)

/-- Raise the score to the floor c when the flag is set. -/
def maxIf (b : Bool) (c s : ℚ) : ℚ := if b then max s c else s

/-- Alert dominance of the source, in its order: watch floor 70, then
warning floor 90, then PDS floor 98. -/
def applyFloors (al : AlertFlags) (s : ℚ) : ℚ :=
  maxIf al.has_pds 98 (maxIf al.has_warning 90 (maxIf al.has_watch 70 s))

/-- Final clip to the interval from 0 to 100. -/
def clamp0100 (s : ℚ) : ℚ := max 0 (min 100 s)

/-- Rounding to one decimal place.  On the exact rationals produced by
the scorer, which are all multiples of 1/10, every rounding mode is the
identity, so the choice of round is immaterial. -/
def round1 (q : ℚ) : ℚ := ((round ((10 : ℚ) * q) : ℤ) : ℚ) / 10

/-- The result record of the scorer: the rounded score together with
the exact components that produced it. -/
structure ScoreResult where
  score : ℚ
  spc_categorical : Option String
  spc_prob_tornado_pct : Option ℤ
  alerts : AlertFlags
  hourly_summary : HourlySummary

/-- score_likelihood of the source: raw score, alert floors, clip,
round, packaged with the input components. -/
def score_likelihood (spc_cat : Option String) (spc_prob_tor : Option ℤ)
    (alerts : AlertFlags) (hourly_summary : HourlySummary) : ScoreResult :=
  { score := round1 (clamp0100 (applyFloors alerts (rawScore spc_cat spc_prob_tor hourly_summary))),
    spc_categorical := spc_cat,
    spc_prob_tornado_pct := spc_prob_tor,
    alerts := alerts,
    hourly_summary := hourly_summary }

/-- The full categorical vocabulary in the priority order of the source
and of the specification. -/
def vocabOrdered : List String := ["TSTM", "MRGL", "SLGT", "ENH", "MDT", "HIGH"]

/-- Modelled from the claim wording for the categorical resolver: the
first vocabulary entry, in priority order, occurring as a substring of
the normalised first-polygon label; none on an empty polygon list or
when no entry occurs. -/
def categoricalSpec (feats : List Props) : Option String :=
  match feats with
  | [] => none
  | props :: _ =>
    vocabOrdered.find?
      (fun v => containsSub (normCat (orKeys props ["LABEL", "LABEL2", "Type", "label"])) v.data)

/-- Modelled from the amended claim wording for the probabilistic
resolver: search the label for a number followed, possibly after
whitespace, by a percent sign, then fall back to scanning all attribute
values in stored order; absent when nothing matches. -/
def probSpec (feats : List Props) : Option ℤ :=
  match feats with
  | [] => none
  | props :: _ =>
    let fromLabel := findPct (orKeys props ["LABEL", "label"]).data
    let fromValues := (props.map (fun kv => kv.2)).findSome? (fun v => findPct v.data)
    (Option.orElse fromLabel (fun _ => fromValues)).map (fun n => (n : ℤ))

/-- The literal reading of the original claim for the probabilistic
resolver: the percent sign must immediately follow the digits, with no
whitespace in between. -/
def probSpecImmediate (feats : List Props) : Option ℤ :=
  match feats with
  | [] => none
  | props :: _ =>
    let fromLabel := findPctImmediate (orKeys props ["LABEL", "label"]).data
    let fromValues :=
      (props.map (fun kv => kv.2)).findSome? (fun v => findPctImmediate v.data)
    (Option.orElse fromLabel (fun _ => fromValues)).map (fun n => (n : ℤ))

/-- The seven categorical severity tiers in increasing order. -/
def catTier : Fin 7 → Option String
  | ⟨0, _⟩ => none
  | ⟨1, _⟩ => some "TSTM"
  | ⟨2, _⟩ => some "MRGL"
  | ⟨3, _⟩ => some "SLGT"
  | ⟨4, _⟩ => some "ENH"
  | ⟨5, _⟩ => some "MDT"
  | ⟨6, _⟩ => some "HIGH"
  | ⟨n + 7, h⟩ => absurd h (by omega)

/-! Helper lemmas about rounding, the alert floors and the clip. -/

lemma round1_mono {a b : ℚ} (h : a ≤ b) : round1 a ≤ round1 b := by
  unfold round1
  have hr : round ((10 : ℚ) * a) ≤ round ((10 : ℚ) * b) := by
    rw [round_eq, round_eq]
    exact Int.floor_mono (by linarith)
  have hc : ((round ((10 : ℚ) * a) : ℤ) : ℚ) ≤ ((round ((10 : ℚ) * b) : ℤ) : ℚ) := by
    exact_mod_cast hr
  linarith

lemma round1_intCast (n : ℤ) : round1 ((n : ℤ) : ℚ) = ((n : ℤ) : ℚ) := by
  unfold round1
  rw [show (10 : ℚ) * ((n : ℤ) : ℚ) = ((10 * n : ℤ) : ℚ) by push_cast; ring, round_intCast]
  push_cast
  ring

lemma intCast_le_round1 (n : ℤ) {q : ℚ} (h : ((n : ℤ) : ℚ) ≤ q) : ((n : ℤ) : ℚ) ≤ round1 q := by
  have hm := round1_mono h
  rwa [round1_intCast] at hm

lemma round1_le_intCast (n : ℤ) {q : ℚ} (h : q ≤ ((n : ℤ) : ℚ)) : round1 q ≤ ((n : ℤ) : ℚ) := by
  have hm := round1_mono h
  rwa [round1_intCast] at hm

lemma maxIf_mono (b : Bool) (c : ℚ) {s t : ℚ} (h : s ≤ t) : maxIf b c s ≤ maxIf b c t := by
  unfold maxIf
  split_ifs
  · exact max_le_max h le_rfl
  · exact h

lemma le_maxIf (b : Bool) (c s : ℚ) : s ≤ maxIf b c s := by
  unfold maxIf
  split_ifs
  · exact le_max_left _ _
  · exact le_rfl

lemma le_maxIf_trans (b : Bool) (c : ℚ) {d s : ℚ} (h : d ≤ s) : d ≤ maxIf b c s :=
  le_trans h (le_maxIf b c s)

lemma applyFloors_mono (al : AlertFlags) {s t : ℚ} (h : s ≤ t) :
    applyFloors al s ≤ applyFloors al t :=
  maxIf_mono _ _ (maxIf_mono _ _ (maxIf_mono _ _ h))

lemma watch_floor {al : AlertFlags} (h : al.has_watch = true) (s : ℚ) :
    (70 : ℚ) ≤ applyFloors al s := by
  unfold applyFloors
  rw [h]
  exact le_maxIf_trans _ _ (le_maxIf_trans _ _ (le_max_right s 70))

lemma warning_floor {al : AlertFlags} (h : al.has_warning = true) (s : ℚ) :
    (90 : ℚ) ≤ applyFloors al s := by
  unfold applyFloors
  rw [h]
  exact le_maxIf_trans _ _ (le_max_right _ 90)

lemma pds_floor {al : AlertFlags} (h : al.has_pds = true) (s : ℚ) :
    (98 : ℚ) ≤ applyFloors al s := by
  unfold applyFloors
  rw [h]
  exact le_max_right _ 98

lemma clamp0100_mono {s t : ℚ} (h : s ≤ t) : clamp0100 s ≤ clamp0100 t :=
  max_le_max le_rfl (min_le_min le_rfl h)

lemma clamp0100_nonneg (s : ℚ) : 0 ≤ clamp0100 s := le_max_left _ _

lemma clamp0100_le_100 (s : ℚ) : clamp0100 s ≤ 100 :=
  max_le (by norm_num) (min_le_left _ _)

lemma le_clamp0100 {c s : ℚ} (hc : c ≤ 100) (h : c ≤ s) : c ≤ clamp0100 s :=
  le_trans (le_min hc h) (le_max_right _ _)

lemma score_likelihood_score (c : Option String) (p : Option ℤ) (al : AlertFlags)
    (hs : HourlySummary) :
    (score_likelihood c p al hs).score
      = round1 (clamp0100 (applyFloors al (rawScore c p hs))) := rfl

lemma score_mono_raw (al : AlertFlags) {c1 c2 : Option String} {p1 p2 : Option ℤ}
    {hs1 hs2 : HourlySummary} (h : rawScore c1 p1 hs1 ≤ rawScore c2 p2 hs2) :
    (score_likelihood c1 p1 al hs1).score ≤ (score_likelihood c2 p2 al hs2).score :=
  round1_mono (clamp0100_mono (applyFloors_mono al h))

lemma catWeight_tier_mono : ∀ i j : Fin 7, i ≤ j → CAT_WEIGHTS (catTier i) ≤ CAT_WEIGHTS (catTier j) := by
  decide

lemma gustBonus_mono {a b : ℤ} (h : a ≤ b) : gustBonus a ≤ gustBonus b := by
  unfold gustBonus
  split_ifs with h1 h2 h2
  · exact min_le_min (by omega) le_rfl
  · exact absurd (lt_of_lt_of_le h1 h) h2
  · exact le_min (by omega) (by norm_num)
  · exact le_rfl

/-- C1: for every input tuple (categorical label, optional probabilistic
tornado percentage, alert flags, hourly summary), the score field of the
ScoreResult returned by score_likelihood lies in the interval from 0 to
100. -/
theorem c1_score_in_range (c : Option String) (p : Option ℤ) (al : AlertFlags)
    (hs : HourlySummary) :
    0 ≤ (score_likelihood c p al hs).score ∧ (score_likelihood c p al hs).score ≤ 100 := by
  rw [score_likelihood_score]
  constructor
  · have h := intCast_le_round1 0
      (by simpa using clamp0100_nonneg (applyFloors al (rawScore c p hs)))
    simpa using h
  · have h := round1_le_intCast 100
      (by simpa using clamp0100_le_100 (applyFloors al (rawScore c p hs)))
    simpa using h

/-- C2: the watch flag forces a score of at least 70, the warning flag
at least 90, and the pds flag at least 98, each regardless of all other
inputs; the floors compose, so pds with arbitrarily low base inputs
still yields at least 98. -/
theorem c2_alert_floors (c : Option String) (p : Option ℤ) (al : AlertFlags)
    (hs : HourlySummary) :
    (al.has_watch = true → (70 : ℚ) ≤ (score_likelihood c p al hs).score)
      ∧ (al.has_warning = true → (90 : ℚ) ≤ (score_likelihood c p al hs).score)
      ∧ (al.has_pds = true → (98 : ℚ) ≤ (score_likelihood c p al hs).score) := by
  refine ⟨fun h => ?_, fun h => ?_, fun h => ?_⟩ <;> rw [score_likelihood_score]
  · have h70 : ((70 : ℤ) : ℚ) ≤ clamp0100 (applyFloors al (rawScore c p hs)) := by
      simpa using le_clamp0100 (by norm_num) (watch_floor h (rawScore c p hs))
    simpa using intCast_le_round1 70 h70
  · have h90 : ((90 : ℤ) : ℚ) ≤ clamp0100 (applyFloors al (rawScore c p hs)) := by
      simpa using le_clamp0100 (by norm_num) (warning_floor h (rawScore c p hs))
    simpa using intCast_le_round1 90 h90
  · have h98 : ((98 : ℤ) : ℚ) ≤ clamp0100 (applyFloors al (rawScore c p hs)) := by
      simpa using le_clamp0100 (by norm_num) (pds_floor h (rawScore c p hs))
    simpa using intCast_le_round1 98 h98

/-- Witness for C2: with only the pds flag set and the lowest possible
base inputs, the score is still at least 98. -/
theorem c2_alert_floors_witness :
    (98 : ℚ) ≤ (score_likelihood none none ⟨false, false, true⟩ ⟨0, 0, 0⟩).score :=
  (c2_alert_floors none none ⟨false, false, true⟩ ⟨0, 0, 0⟩).2.2 rfl

/-- C3: holding all other inputs fixed, the score is monotonically
non-decreasing in the categorical severity tier (none, TSTM, MRGL,
SLGT, ENH, MDT, HIGH in increasing order), in the probabilistic
percentage (for non-negative percentages, with absent below any
present value), in thunder_hours, in max_pop, and in max_gust_mph. -/
theorem c3_monotonicity :
    (∀ (i j : Fin 7) (p : Option ℤ) (al : AlertFlags) (hs : HourlySummary), i ≤ j →
        (score_likelihood (catTier i) p al hs).score
          ≤ (score_likelihood (catTier j) p al hs).score)
      ∧ (∀ (c : Option String) (al : AlertFlags) (hs : HourlySummary) (p1 p2 : ℤ),
          0 ≤ p1 → p1 ≤ p2 →
          (score_likelihood c (some p1) al hs).score
            ≤ (score_likelihood c (some p2) al hs).score)
      ∧ (∀ (c : Option String) (al : AlertFlags) (hs : HourlySummary) (p : ℤ), 0 ≤ p →
          (score_likelihood c none al hs).score
            ≤ (score_likelihood c (some p) al hs).score)
      ∧ (∀ (c : Option String) (p : Option ℤ) (al : AlertFlags) (t1 t2 mp mg : ℤ), t1 ≤ t2 →
          (score_likelihood c p al ⟨t1, mp, mg⟩).score
            ≤ (score_likelihood c p al ⟨t2, mp, mg⟩).score)
      ∧ (∀ (c : Option String) (p : Option ℤ) (al : AlertFlags) (th mp1 mp2 mg : ℤ),
          mp1 ≤ mp2 →
          (score_likelihood c p al ⟨th, mp1, mg⟩).score
            ≤ (score_likelihood c p al ⟨th, mp2, mg⟩).score)
      ∧ (∀ (c : Option String) (p : Option ℤ) (al : AlertFlags) (th mp mg1 mg2 : ℤ),
          mg1 ≤ mg2 →
          (score_likelihood c p al ⟨th, mp, mg1⟩).score
            ≤ (score_likelihood c p al ⟨th, mp, mg2⟩).score) := by
  refine ⟨fun i j p al hs hij => ?_, fun c al hs p1 p2 hp1 hp => ?_,
    fun c al hs p hp => ?_, fun c p al t1 t2 mp mg ht => ?_,
    fun c p al th mp1 mp2 mg hmp => ?_, fun c p al th mp mg1 mg2 hmg => ?_⟩
  · apply score_mono_raw
    have hw : (CAT_WEIGHTS (catTier i) : ℚ) ≤ (CAT_WEIGHTS (catTier j) : ℚ) := by
      exact_mod_cast catWeight_tier_mono i j hij
    unfold rawScore
    linarith
  · apply score_mono_raw
    have hp12 : ((p1 : ℤ) : ℚ) ≤ ((p2 : ℤ) : ℚ) := by exact_mod_cast hp
    unfold rawScore
    simp only [probTerm]
    linarith
  · apply score_mono_raw
    have hp0 : (0 : ℚ) ≤ ((p : ℤ) : ℚ) := by exact_mod_cast hp
    unfold rawScore
    simp only [probTerm]
    linarith
  · apply score_mono_raw
    have hm : ((min t1 10 : ℤ) : ℚ) ≤ ((min t2 10 : ℤ) : ℚ) := by
      exact_mod_cast min_le_min ht le_rfl
    unfold rawScore
    dsimp only
    linarith
  · apply score_mono_raw
    have hm : ((mp1 : ℤ) : ℚ) ≤ ((mp2 : ℤ) : ℚ) := by exact_mod_cast hmp
    unfold rawScore
    dsimp only
    linarith
  · apply score_mono_raw
    have hm : ((gustBonus mg1 : ℤ) : ℚ) ≤ ((gustBonus mg2 : ℤ) : ℚ) := by
      exact_mod_cast gustBonus_mono hmg
    unfold rawScore
    dsimp only
    linarith

/-- Witness for C3: the lowest tier scores no higher than the highest
tier on otherwise identical inputs. -/
theorem c3_monotonicity_witness :
    (score_likelihood (catTier 0) none ⟨false, false, false⟩ ⟨0, 0, 0⟩).score
      ≤ (score_likelihood (catTier 6) none ⟨false, false, false⟩ ⟨0, 0, 0⟩).score :=
  c3_monotonicity.1 0 6 none ⟨false, false, false⟩ ⟨0, 0, 0⟩ (by decide)

/-- C9: with categorical SLGT, probabilistic 10, three thunder hours,
max gust 40, max PoP 60 and no alerts, the score is exactly 60; with
the warning flag additionally set it is exactly 90. -/
theorem c9_scenario :
    (score_likelihood (some "SLGT") (some 10) ⟨false, false, false⟩ ⟨3, 60, 40⟩).score = 60
      ∧ (score_likelihood (some "SLGT") (some 10) ⟨false, true, false⟩ ⟨3, 60, 40⟩).score = 90 := by
  have hraw : rawScore (some "SLGT") (some 10) ⟨3, 60, 40⟩ = 60 := by
    have h1 : CAT_WEIGHTS (some "SLGT") = 25 := by decide
    have h2 : gustBonus 40 = 5 := by decide
    have h3 : min (3 : ℤ) 10 = 3 := by decide
    unfold rawScore
    dsimp only
    rw [h1, h2, h3]
    simp only [probTerm]
    push_cast
    norm_num
  constructor
  · rw [score_likelihood_score, hraw]
    have hfl : applyFloors ⟨false, false, false⟩ (60 : ℚ) = 60 := by
      unfold applyFloors maxIf
      norm_num
    rw [hfl]
    have hcl : clamp0100 (60 : ℚ) = 60 := by
      unfold clamp0100
      norm_num [min_def, max_def]
    rw [hcl, show (60 : ℚ) = ((60 : ℤ) : ℚ) by norm_num]
    exact round1_intCast 60
  · rw [score_likelihood_score, hraw]
    have hfl : applyFloors ⟨false, true, false⟩ (60 : ℚ) = 90 := by
      unfold applyFloors maxIf
      norm_num [max_def]
    rw [hfl]
    have hcl : clamp0100 (90 : ℚ) = 90 := by
      unfold clamp0100
      norm_num [min_def, max_def]
    rw [hcl, show (90 : ℚ) = ((90 : ℤ) : ℚ) by norm_num]
    exact round1_intCast 90

/-- C10: a categorical label outside the vocabulary contributes a base
weight of 0, so the returned score equals the score computed with no
categorical label at all, the remaining inputs unchanged. -/
theorem c10_unknown_label (s : String)
    (h : s ∉ (["TSTM", "MRGL", "SLGT", "ENH", "MDT", "HIGH"] : List String))
    (p : Option ℤ) (al : AlertFlags) (hs : HourlySummary) :
    (score_likelihood (some s) p al hs).score = (score_likelihood none p al hs).score := by
  simp only [List.mem_cons, List.not_mem_nil, or_false, not_or] at h
  obtain ⟨h1, h2, h3, h4, h5, h6⟩ := h
  have hw : CAT_WEIGHTS (some s) = 0 := by
    simp only [CAT_WEIGHTS, h1, h2, h3, h4, h5, h6, if_false]
  have hr : rawScore (some s) p hs = rawScore none p hs := by
    unfold rawScore
    rw [hw]
    norm_num [CAT_WEIGHTS]
  rw [score_likelihood_score, score_likelihood_score, hr]

/-- Witness for C10: a concrete label outside the vocabulary yields the
same score as an absent label. -/
theorem c10_unknown_label_witness :
    (score_likelihood (some "BOGUS") none ⟨false, false, false⟩ ⟨0, 0, 0⟩).score
      = (score_likelihood none none ⟨false, false, false⟩ ⟨0, 0, 0⟩).score :=
  c10_unknown_label "BOGUS" (by decide) none ⟨false, false, false⟩ ⟨0, 0, 0⟩

/-! Helper lemmas about the hourly summarizer. -/

lemma summarizeAux_thunder : ∀ (ps : List HourlyPeriod) (acc : HourlySummary),
    (summarizeAux acc ps).thunder_hours
      = acc.thunder_hours + ((ps.countP isThunder : ℕ) : ℤ) := by
  intro ps
  induction ps with
  | nil => intro acc; simp [summarizeAux]
  | cons p t ih =>
    intro acc
    simp only [summarizeAux]
    rw [ih]
    cases h : isThunder p
    · simp [List.countP_cons, h]
    · simp [List.countP_cons, h]
      ring

lemma summarizeAux_pop : ∀ (ps : List HourlyPeriod) (acc : HourlySummary),
    (summarizeAux acc ps).max_pop = List.foldl max acc.max_pop (ps.map popClamped) := by
  intro ps
  induction ps with
  | nil => intro acc; simp [summarizeAux]
  | cons p t ih =>
    intro acc
    simp only [summarizeAux, List.map_cons, List.foldl_cons]
    rw [ih]

lemma summarizeAux_gust : ∀ (ps : List HourlyPeriod) (acc : HourlySummary),
    (summarizeAux acc ps).max_gust_mph = List.foldl max acc.max_gust_mph (ps.map gustVal) := by
  intro ps
  induction ps with
  | nil => intro acc; simp [summarizeAux]
  | cons p t ih =>
    intro acc
    simp only [summarizeAux, List.map_cons, List.foldl_cons]
    rw [ih]

lemma summarize_hourly_eq (ps : List HourlyPeriod) :
    summarize_hourly ps =
      { thunder_hours := ((ps.countP isThunder : ℕ) : ℤ),
        max_pop := listMax (ps.map popClamped),
        max_gust_mph := listMax (ps.map gustVal) } := by
  unfold summarize_hourly
  ext
  · rw [summarizeAux_thunder]
    simp
  · rw [summarizeAux_pop]
    show List.foldl max 0 (ps.map popClamped) = listMax (ps.map popClamped)
    rw [List.foldl_eq_foldr]
    rfl
  · rw [summarizeAux_gust]
    show List.foldl max 0 (ps.map gustVal) = listMax (ps.map gustVal)
    rw [List.foldl_eq_foldr]
    rfl

lemma listMax_nonneg (l : List ℤ) : 0 ≤ listMax l := by
  induction l with
  | nil => simp [listMax]
  | cons a t ih => simpa [listMax] using le_trans ih (le_max_right a _)

lemma listMax_le (b : ℤ) (hb : 0 ≤ b) : ∀ l : List ℤ, (∀ x ∈ l, x ≤ b) → listMax l ≤ b := by
  intro l
  induction l with
  | nil => intro _; simpa [listMax] using hb
  | cons a t ih =>
    intro h
    have hmax : listMax (a :: t) = max a (listMax t) := rfl
    rw [hmax]
    exact max_le (h a (by simp)) (ih fun x hx => h x (by simp [hx]))

lemma popClamped_le_100 (p : HourlyPeriod) : popClamped p ≤ 100 :=
  max_le (by norm_num) (min_le_left _ _)

/-- C4: summarize_hourly returns the count of periods whose short
description matches a thunder pattern, the maximum of the per-period
clamped precipitation probabilities, and the maximum of the per-period
gust values (first embedded integer of a text gust, numeric gusts
truncated toward zero, absent gusts contributing 0), each maximum taken
with baseline 0; the empty sequence yields all zeros. -/
theorem c4_summarize_hourly_spec :
    (∀ ps : List HourlyPeriod, summarize_hourly ps =
        { thunder_hours := ((ps.countP isThunder : ℕ) : ℤ),
          max_pop := listMax (ps.map popClamped),
          max_gust_mph := listMax (ps.map gustVal) })
      ∧ summarize_hourly ([] : List HourlyPeriod) = ⟨0, 0, 0⟩ :=
  ⟨summarize_hourly_eq, rfl⟩

/-- C5: for every input sequence of hourly period records, including
records carrying negative, oversized or non-numeric precipitation and
gust values, the summary satisfies: thunder hours non-negative, max pop
between 0 and 100, and max gust non-negative. -/
theorem c5_summary_invariants (ps : List HourlyPeriod) :
    0 ≤ (summarize_hourly ps).thunder_hours
      ∧ 0 ≤ (summarize_hourly ps).max_pop
      ∧ (summarize_hourly ps).max_pop ≤ 100
      ∧ 0 ≤ (summarize_hourly ps).max_gust_mph := by
  rw [summarize_hourly_eq]
  refine ⟨Int.natCast_nonneg _, listMax_nonneg _, ?_, listMax_nonneg _⟩
  refine listMax_le 100 (by norm_num) _ fun x hx => ?_
  obtain ⟨q, _, rfl⟩ := List.mem_map.mp hx
  exact popClamped_le_100 q

/-! Helper lemmas about the alert classifier. -/

lemma classifyAux_spec : ∀ (fs : List AlertRecord) (acc : AlertFlags),
    classifyAux acc fs =
      ⟨acc.has_watch || fs.any watchPred,
       acc.has_warning || fs.any warnPred,
       acc.has_pds || fs.any pdsPred⟩ := by
  intro fs
  induction fs with
  | nil =>
    intro acc
    cases acc
    simp [classifyAux]
  | cons f t ih =>
    intro acc
    simp only [classifyAux]
    rw [ih]
    simp [List.any_cons, Bool.or_assoc]

lemma classify_spec (fs : List AlertRecord) :
    classify_tornado_alerts fs = ⟨fs.any watchPred, fs.any warnPred, fs.any pdsPred⟩ := by
  unfold classify_tornado_alerts
  rw [classifyAux_spec]
  simp

/-- C8: a flag of classify_tornado_alerts is true exactly when some
record text sets it: warning for the phrase tornado warning, watch for
tornado watch, pds for the PDS phrase or the literal pds; the empty
list yields all-false, and a record that sets a flag keeps it set no
matter what other records surround it. -/
theorem c8_alert_classifier :
    (∀ fs : List AlertRecord,
        (classify_tornado_alerts fs).has_warning = fs.any warnPred
          ∧ (classify_tornado_alerts fs).has_watch = fs.any watchPred
          ∧ (classify_tornado_alerts fs).has_pds = fs.any pdsPred)
      ∧ classify_tornado_alerts [] = ⟨false, false, false⟩
      ∧ (∀ (fs1 fs2 : List AlertRecord) (f : AlertRecord),
          (warnPred f = true →
            (classify_tornado_alerts (fs1 ++ f :: fs2)).has_warning = true)
            ∧ (watchPred f = true →
              (classify_tornado_alerts (fs1 ++ f :: fs2)).has_watch = true)
            ∧ (pdsPred f = true →
              (classify_tornado_alerts (fs1 ++ f :: fs2)).has_pds = true)) := by
  refine ⟨fun fs => ?_, rfl, fun fs1 fs2 f => ⟨fun h => ?_, fun h => ?_, fun h => ?_⟩⟩
  · rw [classify_spec]
    exact ⟨rfl, rfl, rfl⟩
  · rw [classify_spec]
    simp [List.any_append, List.any_cons, h]
  · rw [classify_spec]
    simp [List.any_append, List.any_cons, h]
  · rw [classify_spec]
    simp [List.any_append, List.any_cons, h]

/-- Witness for C8: a single record whose event field is Tornado
Warning turns the warning flag on. -/
theorem c8_alert_classifier_witness :
    (classify_tornado_alerts [⟨some "Tornado Warning", none, none⟩]).has_warning = true :=
  (c8_alert_classifier.2.2 [] [] ⟨some "Tornado Warning", none, none⟩).1 (by decide)

/-! Helper lemmas about the outlook resolvers. -/

lemma find?_vocabOrdered (L : List Char) :
    vocabOrdered.find? (fun v => containsSub L v.data)
      = if containsSub L "TSTM".data then some "TSTM"
        else catVocab.find? (fun v => containsSub L v.data) := by
  rw [show vocabOrdered = "TSTM" :: catVocab from rfl]
  cases h : containsSub L "TSTM".data
  · rw [List.find?_cons_of_neg _ (by simpa using h)]
    simp [h]
  · rw [List.find?_cons_of_pos _ (by simpa using h)]
    simp [h]

/-- C6: the categorical resolver returns none on an empty polygon list;
otherwise it normalises the first polygon label (tried across the
candidate field names in priority order) and returns the first
vocabulary entry, in the order TSTM, MRGL, SLGT, ENH, MDT, HIGH, that
occurs as a substring, or none; the label Enhanced Risk (ENH) resolves
to ENH. -/
theorem c6_categorical_resolver :
    (∀ feats : List Props, get_spc_categorical feats = categoricalSpec feats)
      ∧ get_spc_categorical [] = none
      ∧ get_spc_categorical [[("LABEL", "Enhanced Risk (ENH)")]] = some "ENH" := by
  refine ⟨fun feats => ?_, rfl, by decide⟩
  cases feats with
  | nil => rfl
  | cons props rest =>
    simp only [get_spc_categorical, categoricalSpec]
    rw [find?_vocabOrdered]
    cases h : containsSub (normCat (orKeys props ["LABEL", "LABEL2", "Type", "label"])) "TSTM".data
    · simp only [h, Bool.false_eq_true, if_false]
      cases hf : catVocab.find?
          (fun v => containsSub (normCat (orKeys props ["LABEL", "LABEL2", "Type", "label"])) v.data) with
      | none => simp [hf]
      | some v => simp [hf]
    · simp [h]

/-- C7 counterexample: in the label 5-space-percent the code accepts
whitespace between the digits and the percent sign and resolves to 5,
while the claim as stated (number immediately followed by the percent
sign) yields absent. -/
theorem c7_counterexample :
    get_spc_prob_tornado [[("LABEL", "5 %")]] = some 5
      ∧ probSpecImmediate [[("LABEL", "5 %")]] = none := by
  decide

/-- C7 (amended): the probabilistic resolver returns absent on an empty
polygon list; otherwise it searches the first polygon label for a
number followed, possibly after whitespace, by a percent sign, then
falls back to scanning all attribute values in stored order, returning
the first such integer, else absent; the attribute set with LABEL 5pct
resolves to 5. -/
theorem c7_prob_resolver :
    (∀ feats : List Props, get_spc_prob_tornado feats = probSpec feats)
      ∧ get_spc_prob_tornado [] = none
      ∧ get_spc_prob_tornado [[("LABEL", "5%")]] = some 5 := by
  refine ⟨fun feats => ?_, rfl, by decide⟩
  cases feats with
  | nil => rfl
  | cons props rest =>
    simp only [get_spc_prob_tornado, probSpec]
    cases hl : findPct (orKeys props ["LABEL", "label"]).data with
    | some n => simp [hl, Option.orElse]
    | none =>
      cases hv : (props.map (fun kv => kv.2)).findSome? (fun v => findPct v.data) with
      | some n => simp [hl, hv, Option.orElse]
      | none => simp [hl, hv, Option.orElse]

end Tornado
